import Mathlib

/-
Shallow embedding of the agentic pipeline core (src/agentic_ai): the run state
(core/state.py), the seven stage agents (agents/*.py), the node wrapper, router
and graph walk of the orchestrator (core/orchestrator.py), and the run entry
point.  Modelling conventions, applied uniformly:

* Python dicts with a fixed key set become structures; an optional dict key
  becomes an `Option` field, and `intermediate_results["needs_retry"]` (which
  the code only ever sets to `True`) becomes a `Bool` whose `false` value
  models the key being absent.
* Wall-clock timestamps, uuids and log output are dropped: they never feed
  back into control flow.
* Python floats are modelled as exact rationals.  Every score handled by the
  code is a small decimal and every comparison in the claims is reproduced
  exactly by rational arithmetic.
* The language-model collaborator and the free-text parsing heuristics inside
  the stages (regex score extraction, JSON plan parsing, bullet extraction)
  are out of the core's scope per the specification; their outcome for one
  node visit is an oracle record `Obs`: whether the collaborator call raised,
  whether an exception escaped the stage's own handling (a defect), whether a
  monitor recording call raised, and the parsed payloads.  The walk takes a
  stream `Nat → Obs`, one record per stage visit.
* One agent object exists per stage kind (agent ids are fixed at orchestrator
  construction), so `agent_states` is keyed by the stage kind.
* `run()` is modelled with the orchestrator's own config also serving as the
  state's config, matching `run(task, context=None, config=None)`; the
  optional per-run override merge is not needed by any claim.
-/

namespace AgenticAI

/-- Status values of core/state.py `AgentStatus`. -/
inductive AgentStatus
  | pending
  | running
  | completed
  | failed
  | skipped
deriving DecidableEq, Repr

/-- Stage kinds of core/state.py `AgentType`. -/
inductive AgentType
  | planner
  | researcher
  | analyzer
  | synthesizer
  | validator
  | executor
  | reviewer
deriving DecidableEq, Repr

/-- String value of a stage kind (the `.value` of the Python enum). -/
def AgentType.value : AgentType → String
  | .planner => "planner"
  | .researcher => "researcher"
  | .analyzer => "analyzer"
  | .synthesizer => "synthesizer"
  | .validator => "validator"
  | .executor => "executor"
  | .reviewer => "reviewer"

/-- Message appended to `state["messages"]` (core/state.py `add_message`);
timestamp and metadata abstracted away. -/
structure Message where
  role : String
  content : String
  agent_type : Option String
deriving DecidableEq, Repr

/-- Entry of `state["errors"]`: the dict `{"agent": ..., "error": ...,
"timestamp": ...}` with the wall-clock timestamp abstracted away. -/
structure ErrorEntry where
  agent : String
  error : String
deriving DecidableEq, Repr

/-- Fields of the synthesizer's `synthesis` payload that are read downstream
(agents/synthesizer.py `_structure_synthesis`); the text fields are dropped. -/
structure Synthesis where
  actionable_items : List String
  next_steps : List String
deriving DecidableEq, Repr

/-- Fields of the validator's `validation` payload that are read downstream
(agents/validator.py `_structure_validation`). -/
structure Validation where
  overall_score : ℚ
  criteria_scores : List (String × ℚ)
  suggestions : List String
  passed : Bool
deriving DecidableEq, Repr

/-- The planner's parsed `execution_plan` payload, reduced to the one field the
code reads back (`agent_sequence`, copied into `next_steps`). -/
structure Plan where
  agent_sequence : List String
deriving DecidableEq, Repr

/-- The researcher's `research_findings` payload, reduced to `key_points`. -/
structure Findings where
  key_points : List String
deriving DecidableEq, Repr

/-- The analyzer's `analysis` payload, reduced to `insights`. -/
structure Analysis where
  insights : List String
deriving DecidableEq, Repr

/-- The executor's `execution` payload: either the skip record or the count of
executed actions (agents/executor.py). -/
structure Execution where
  skipped : Bool
  actions_executed : Nat
deriving DecidableEq, Repr

/-- The reviewer's `review` payload (agents/reviewer.py `_structure_review`). -/
structure Review where
  quality_score : ℚ
  task_completed : Bool
deriving DecidableEq, Repr

/-- The reviewer's `final_result` payload (agents/reviewer.py
`_create_final_result`), reduced to the quality fields. -/
structure FinalResult where
  quality_score : ℚ
  task_completed : Bool
deriving DecidableEq, Repr

/-- The `intermediate_results` dict: one field per key the code writes.
`needs_retry = false` models the key being absent (the code only ever assigns
`True` to it and never deletes it). -/
structure IntermediateResults where
  execution_plan : Option Plan
  research_findings : Option Findings
  analysis : Option Analysis
  synthesis : Option Synthesis
  validation : Option Validation
  needs_retry : Bool
  execution : Option Execution
  review : Option Review
deriving DecidableEq, Repr

/-- The empty `intermediate_results` dict of a fresh state. -/
def IntermediateResults.empty : IntermediateResults :=
  ⟨none, none, none, none, none, false, none, none⟩

/-- Fields of an agent's `output_data` dict that later stages read back through
`_get_context_from_previous_agents`: the executor reads the synthesizer's
`synthesis` and the validator's `validation`. -/
structure StageOutput where
  synthesis : Option Synthesis
  validation : Option Validation
deriving DecidableEq, Repr

/-- Per-agent record in `agent_states` (core/state.py `AgentState`), without
the wall-clock fields. -/
structure AgentStateRec where
  status : AgentStatus
  output_data : Option StageOutput
  error : Option String
deriving DecidableEq, Repr

/-- Configuration keys relevant to the claims.  `max_retries` is the top-level
key the router (`self.config.get("max_retries", 3)`) and the validator
(`state["config"].get("max_retries", 3)`) actually read; `pipeline_max_retries`
models the documented `pipeline.max_retries` key and `agents_executor_enabled`
the documented `agents.executor.enabled` key (neither is read by the code);
`validator_min_score` models `agents.validator.min_score`, which reaches the
validator agent as `self.config.get("min_score", 0.7)`. -/
structure Config where
  max_retries : Option Nat
  pipeline_max_retries : Option Nat
  agents_executor_enabled : Option Bool
  validator_min_score : Option ℚ
deriving DecidableEq, Repr

/-- The run state threaded through every node (core/state.py
`PipelineState`), without `pipeline_id`/`start_time`/`context` (opaque). -/
structure PipelineState where
  task : String
  messages : List Message
  agent_states : List (AgentType × AgentStateRec)
  current_step : String
  next_steps : List String
  completed_steps : List String
  intermediate_results : IntermediateResults
  final_result : Option FinalResult
  status : AgentStatus
  errors : List ErrorEntry
  retry_count : Nat
  config : Config
deriving DecidableEq, Repr

/-- core/state.py `create_initial_state`. -/
def create_initial_state (task : String) (config : Config) : PipelineState :=
  { task := task
    messages := []
    agent_states := []
    current_step := "start"
    next_steps := ["planner"]
    completed_steps := []
    intermediate_results := IntermediateResults.empty
    final_result := none
    status := .pending
    errors := []
    retry_count := 0
    config := config }

/-- Association lookup in `agent_states`. -/
def lookupAgent : List (AgentType × AgentStateRec) → AgentType → Option AgentStateRec
  | [], _ => none
  | (k, r) :: rest, q => if k = q then some r else lookupAgent rest q

/-- Association update (insert or overwrite) in `agent_states`. -/
def setAgent : List (AgentType × AgentStateRec) → AgentType → AgentStateRec →
    List (AgentType × AgentStateRec)
  | [], q, r => [(q, r)]
  | (k, r0) :: rest, q, r =>
      if k = q then (q, r) :: rest else (k, r0) :: setAgent rest q r

/-- The record stored by core/state.py `update_agent_state`: a fresh record
when the agent has none, otherwise the old record with the new status and,
only when given (truthy in Python), the new output and error. -/
def updated_entry (prev : Option AgentStateRec) (st : AgentStatus)
    (out : Option StageOutput) (err : Option String) : AgentStateRec :=
  match prev with
  | none => ⟨st, out, err⟩
  | some r =>
      ⟨st, if out.isSome then out else r.output_data,
        if err.isSome then err else r.error⟩

/-- core/state.py `update_agent_state`. -/
def update_agent_state (s : PipelineState) (k : AgentType) (st : AgentStatus)
    (out : Option StageOutput) (err : Option String) : PipelineState :=
  let entry := updated_entry (lookupAgent s.agent_states k) st out err
  { s with agent_states := setAgent s.agent_states k entry }

/-- agents/base.py `BaseAgent._add_message` with core/state.py `add_message`:
appends one message with role "agent" and the agent's type. -/
def addMessage (s : PipelineState) (k : AgentType) (content : String) :
    PipelineState :=
  { s with messages := s.messages ++ [⟨"agent", content, some k.value⟩] }

/-- agents/base.py `BaseAgent._log_execution_start`: marks the agent Running. -/
def logExecutionStart (s : PipelineState) (k : AgentType) : PipelineState :=
  update_agent_state s k .running none none

/-- agents/base.py `BaseAgent._log_execution_end`: marks the agent Completed or
Failed with the error message when given. -/
def logExecutionEnd (s : PipelineState) (k : AgentType) (success : Bool)
    (err : Option String) : PipelineState :=
  update_agent_state s k (if success then .completed else .failed) none err

/-- The one-entry append to `state["errors"]` every agent performs in its own
`except` handler. -/
def appendError (s : PipelineState) (k : AgentType) (msg : String) :
    PipelineState :=
  { s with errors := s.errors ++ [⟨k.value, msg⟩] }

/-- agents/base.py `_get_context_from_previous_agents`, restricted to one key:
the output of an agent whose recorded status is Completed. -/
def contextOf (s : PipelineState) (k : AgentType) : Option StageOutput :=
  match lookupAgent s.agent_states k with
  | some r => if r.status = .completed then r.output_data else none
  | none => none

/-- Oracle record for one stage visit: the environment's failure outcomes and
the outcome of the collaborator call and of the in-stage text parsing.  Each
failure flag corresponds to a failure mode the specification itself names:
`llm_throws`/`llm_err` is the language-model collaborator call raising
(spec §6: "failures surface as an error the calling stage must catch"),
`defect`/`defect_msg` is an exception escaping a stage's own handling
(spec §4.2: "a defect, not a business failure"; the message models `str(e)`),
and the monitor flags are failures of the Monitor's recording calls
(spec §4.4), one for the `record_agent_start` call made before the wrapper's
`try` block and one for the `record_agent_completion` call made inside it. -/
structure Obs where
  monitor_start_throws : Bool
  monitor_completion_throws : Bool
  defect : Bool
  defect_msg : String
  llm_throws : Bool
  llm_err : String
  plan : Plan
  key_points : List String
  insights : List String
  actionable_items : List String
  next_steps : List String
  found_scores : List (String × ℚ)
  suggestions : List String
  review_quality : ℚ

/-- The five criteria of agents/validator.py `_extract_criteria_scores`. -/
def criteriaList : List String :=
  ["accuracy", "completeness", "coherence", "relevance", "quality"]

/-- Association lookup modelling the per-criterion `re.search` outcome. -/
def lookupScore : List (String × ℚ) → String → Option ℚ
  | [], _ => none
  | (c, v) :: rest, q => if c = q then some v else lookupScore rest q

/-- agents/validator.py `_extract_criteria_scores`: for each criterion take the
parsed score, divide by 10 when it exceeds 1, cap at 1; default 0.7 when the
pattern does not match. -/
def extract_criteria_scores (found : List (String × ℚ)) : List (String × ℚ) :=
  criteriaList.map (fun c =>
    match lookupScore found c with
    | some sc => (c, min (if 1 < sc then sc / 10 else sc) 1)
    | none => (c, 7/10))

/-- Sum of the score values of a criteria-score list. -/
def sumScores : List (String × ℚ) → ℚ
  | [] => 0
  | (_, v) :: rest => v + sumScores rest

/-- agents/validator.py `_structure_validation`: overall score is the mean of
the criteria scores (0.5 when there are none), `passed` compares it against
the hard-coded 0.7. -/
def structure_validation (found : List (String × ℚ))
    (suggestions : List String) : Validation :=
  let criteria_scores := extract_criteria_scores found
  let overall_score :=
    if criteria_scores = [] then 1/2
    else sumScores criteria_scores / (criteria_scores.length : ℚ)
  { overall_score := overall_score
    criteria_scores := criteria_scores
    suggestions := suggestions
    passed := if (7:ℚ)/10 ≤ overall_score then true else false }

/-- agents/planner.py `PlannerAgent.execute`. -/
def planner_execute (s : PipelineState) (o : Obs) : PipelineState :=
  let s := logExecutionStart s .planner
  if o.llm_throws then
    logExecutionEnd (appendError s .planner o.llm_err) .planner false
      (some o.llm_err)
  else
    let s := { s with
      intermediate_results :=
        { s.intermediate_results with execution_plan := some o.plan }
      next_steps := o.plan.agent_sequence }
    let s := addMessage s .planner "Created execution plan"
    let s := update_agent_state s .planner .completed (some ⟨none, none⟩) none
    logExecutionEnd s .planner true none

/-- agents/researcher.py `ResearcherAgent.execute`. -/
def researcher_execute (s : PipelineState) (o : Obs) : PipelineState :=
  let s := logExecutionStart s .researcher
  if o.llm_throws then
    logExecutionEnd (appendError s .researcher o.llm_err) .researcher false
      (some o.llm_err)
  else
    let s := { s with
      intermediate_results :=
        { s.intermediate_results with research_findings := some ⟨o.key_points⟩ } }
    let s := addMessage s .researcher "Research completed"
    let s := update_agent_state s .researcher .completed (some ⟨none, none⟩) none
    logExecutionEnd s .researcher true none

/-- agents/analyzer.py `AnalyzerAgent.execute`. -/
def analyzer_execute (s : PipelineState) (o : Obs) : PipelineState :=
  let s := logExecutionStart s .analyzer
  if o.llm_throws then
    logExecutionEnd (appendError s .analyzer o.llm_err) .analyzer false
      (some o.llm_err)
  else
    let s := { s with
      intermediate_results :=
        { s.intermediate_results with analysis := some ⟨o.insights⟩ } }
    let s := addMessage s .analyzer "Analysis completed"
    let s := update_agent_state s .analyzer .completed (some ⟨none, none⟩) none
    logExecutionEnd s .analyzer true none

/-- agents/synthesizer.py `SynthesizerAgent.execute`; the synthesis payload is
also stored as the agent's output, where the executor later reads it. -/
def synthesizer_execute (s : PipelineState) (o : Obs) : PipelineState :=
  let s := logExecutionStart s .synthesizer
  if o.llm_throws then
    logExecutionEnd (appendError s .synthesizer o.llm_err) .synthesizer false
      (some o.llm_err)
  else
    let synth : Synthesis := ⟨o.actionable_items, o.next_steps⟩
    let s := { s with
      intermediate_results :=
        { s.intermediate_results with synthesis := some synth } }
    let s := addMessage s .synthesizer "Synthesis completed"
    let s := update_agent_state s .synthesizer .completed
      (some ⟨some synth, none⟩) none
    logExecutionEnd s .synthesizer true none

/-- The validator's pass check of agents/validator.py line 55:
`validation["overall_score"] >= self.config.get("min_score", 0.7)`. -/
def validator_passed (cfg : Config) (v : Validation) : Bool :=
  if cfg.validator_min_score.getD ((7:ℚ)/10) ≤ v.overall_score then true
  else false

/-- agents/validator.py `ValidatorAgent.execute`: writes the `validation` key,
appends one message, records its own state, and on a failed validation with
retry budget remaining (top-level `max_retries` key of the state's config,
default 3) increments `retry_count` and sets `needs_retry`.  The source guards
both mutations by one `if`; here each of the two fields is assigned under that
same condition (`fires`), which is equivalent. -/
def validator_execute (cfg : Config) (s : PipelineState) (o : Obs) :
    PipelineState :=
  let s := logExecutionStart s .validator
  if o.llm_throws then
    logExecutionEnd (appendError s .validator o.llm_err) .validator false
      (some o.llm_err)
  else
    let validation := structure_validation o.found_scores o.suggestions
    let s := { s with
      intermediate_results :=
        { s.intermediate_results with validation := some validation } }
    let passed := validator_passed cfg validation
    let s := addMessage s .validator
      (if passed then "Validation passed" else "Validation failed")
    let s := update_agent_state s .validator .completed
      (some ⟨none, some validation⟩) none
    let fires := !passed && decide (s.retry_count < s.config.max_retries.getD 3)
    let s := { s with
      retry_count := if fires then s.retry_count + 1 else s.retry_count
      intermediate_results :=
        { s.intermediate_results with
            needs_retry :=
              if fires then true else s.intermediate_results.needs_retry } }
    logExecutionEnd s .validator true none

/-- agents/executor.py `_identify_actions`: actions come from the
synthesizer's actionable items and the validator's suggestions, read from the
completed agents' outputs (`_parse_action` always yields a truthy dict). -/
def identify_actions (s : PipelineState) : List String :=
  (match contextOf s .synthesizer with
    | some out =>
        match out.synthesis with
        | some sy => sy.actionable_items
        | none => []
    | none => []) ++
  (match contextOf s .validator with
    | some out =>
        match out.validation with
        | some v => v.suggestions
        | none => []
    | none => [])

/-- agents/executor.py `ExecutorAgent.execute`: with no identified actions it
writes the skip record, marks itself Skipped and returns (no message); with
actions it executes them (the per-action calls catch their own failures) and
writes the execution record.  The executor makes no stage-level language-model
call: its collaborator calls happen per action inside `_execute_actions` and
are caught there. -/
def executor_execute (s : PipelineState) (_o : Obs) : PipelineState :=
  let s := logExecutionStart s .executor
  let actions := identify_actions s
  if actions.isEmpty then
    let s := { s with
      intermediate_results :=
        { s.intermediate_results with execution := some ⟨true, 0⟩ } }
    update_agent_state s .executor .skipped none none
  else
    let s := { s with
      intermediate_results :=
        { s.intermediate_results with
            execution := some ⟨false, actions.length⟩ } }
    let s := addMessage s .executor "Executed actions"
    let s := update_agent_state s .executor .completed (some ⟨none, none⟩) none
    logExecutionEnd s .executor true none

/-- agents/reviewer.py `ReviewerAgent.execute`: the only place that sets
`final_result`, on its success path. -/
def reviewer_execute (s : PipelineState) (o : Obs) : PipelineState :=
  let s := logExecutionStart s .reviewer
  if o.llm_throws then
    logExecutionEnd (appendError s .reviewer o.llm_err) .reviewer false
      (some o.llm_err)
  else
    let review : Review :=
      ⟨o.review_quality, if (7:ℚ)/10 ≤ o.review_quality then true else false⟩
    let s := { s with
      intermediate_results :=
        { s.intermediate_results with review := some review }
      final_result := some ⟨review.quality_score, review.task_completed⟩ }
    let s := addMessage s .reviewer "Review completed"
    let s := update_agent_state s .reviewer .completed (some ⟨none, none⟩) none
    logExecutionEnd s .reviewer true none

/-- Dispatch of `agent.execute(state)` over the seven stage kinds. -/
def stage_execute (cfg : Config) (k : AgentType) (s : PipelineState) (o : Obs) :
    PipelineState :=
  match k with
  | .planner => planner_execute s o
  | .researcher => researcher_execute s o
  | .analyzer => analyzer_execute s o
  | .synthesizer => synthesizer_execute s o
  | .validator => validator_execute cfg s o
  | .executor => executor_execute s o
  | .reviewer => reviewer_execute s o

/-- Result of one graph node: the updated state, or an exception escaping the
node. -/
inductive NodeResult
  | ok (s : PipelineState)
  | raised (msg : String) (s : PipelineState)
deriving DecidableEq, Repr

/-- core/orchestrator.py `_create_agent_node`: `record_agent_start` runs before
the `try` block, so an exception it raises escapes the node; inside the `try`,
an exception escaping the stage's own handling (or raised by
`record_agent_completion`) is caught, one error entry is appended and the run
status is set to Failed, and the state is returned; otherwise `current_step`
is set and the stage name appended to `completed_steps`.  `wrapperFinish` is
the successful tail of the wrapper: the stage's result with `current_step` set
and the stage name appended to `completed_steps`. -/
def wrapperFinish (cfg : Config) (k : AgentType) (s : PipelineState) (o : Obs) :
    PipelineState :=
  let s1 := stage_execute cfg k s o
  { s1 with
    current_step := k.value
    completed_steps := s1.completed_steps ++ [k.value] }

/-- core/orchestrator.py `_create_agent_node`, continued: assembles the three
outcomes of a node visit. -/
def agent_node (cfg : Config) (k : AgentType) (s : PipelineState) (o : Obs) :
    NodeResult :=
  if o.monitor_start_throws then
    .raised "monitor record_agent_start" s
  else if o.defect then
    .ok { s with errors := s.errors ++ [⟨k.value, o.defect_msg⟩]
                 status := .failed }
  else if o.monitor_completion_throws then
    .ok { wrapperFinish cfg k s o with
      errors := (wrapperFinish cfg k s o).errors ++
        [⟨k.value, "monitor record_agent_completion"⟩]
      status := .failed }
  else
    .ok (wrapperFinish cfg k s o)

/-- core/orchestrator.py `_route_after_validation`: retry when `needs_retry`
is set and `retry_count` is below the orchestrator config's top-level
`max_retries` (default 3); else executor when the recorded `passed` flag is
true or absent and the synthesis has actionable items or next steps; else
end. -/
def route_after_validation (cfg : Config) (s : PipelineState) : String :=
  if s.intermediate_results.needs_retry = true ∧
      s.retry_count < cfg.max_retries.getD 3 then
    "researcher"
  else if (s.intermediate_results.validation.map Validation.passed).getD true
        = true ∧
      ((s.intermediate_results.synthesis.map Synthesis.actionable_items).getD []
          ≠ [] ∨
        (s.intermediate_results.synthesis.map Synthesis.next_steps).getD []
          ≠ []) then
    "executor"
  else
    "end"

/-- Nodes of the compiled graph: the seven stage nodes, the router node, and
the END sentinel. -/
inductive Node
  | stage (k : AgentType)
  | router
  | terminal
deriving DecidableEq, Repr

/-- The static edges of core/orchestrator.py `_build_graph`: planner → router,
researcher → analyzer → synthesizer → validator → router, executor → reviewer,
reviewer → END. -/
def next_static : AgentType → Node
  | .planner => .router
  | .researcher => .stage .analyzer
  | .analyzer => .stage .synthesizer
  | .synthesizer => .stage .validator
  | .validator => .router
  | .executor => .stage .reviewer
  | .reviewer => .terminal

/-- The conditional-edge table from the router node. -/
def route_target (d : String) : Node :=
  if d = "researcher" then .stage .researcher
  else if d = "executor" then .stage .executor
  else .terminal

/-- Outcome of the graph walk. -/
inductive WalkResult
  | finished (s : PipelineState)
  | raised (msg : String) (s : PipelineState)
  | out_of_fuel (s : PipelineState)
deriving DecidableEq, Repr

/-- Whether a walk ran out of fuel. -/
def WalkResult.isOut : WalkResult → Bool
  | .out_of_fuel _ => true
  | _ => false

/-- The graph walk, fuelled: visits nodes from the entry point following the
static edges and the router's conditional edges, returning the outcome and
the list of visited nodes with the state at entry.  The router node performs
no work on the state (`_router` returns it unchanged); stage nodes consume one
oracle record each. -/
def walk (cfg : Config) (ora : Nat → Obs) :
    Nat → Nat → Node → PipelineState → WalkResult × List (Node × PipelineState)
  | 0, _, _, s => (.out_of_fuel s, [])
  | _ + 1, _, .terminal, s => (.finished s, [])
  | fuel + 1, i, .router, s =>
      let r := walk cfg ora fuel i
        (route_target (route_after_validation cfg s)) s
      (r.1, (.router, s) :: r.2)
  | fuel + 1, i, .stage k, s =>
      match agent_node cfg k s (ora i) with
      | .ok s' =>
          let r := walk cfg ora fuel (i + 1) (next_static k) s'
          (r.1, (.stage k, s) :: r.2)
      | .raised msg s' => (.raised msg s', [(.stage k, s)])

/-- Outcome of core/orchestrator.py `run`: the final state, or the re-raised
exception when the graph walk raised. -/
inductive RunResult
  | ok (s : PipelineState)
  | exn (msg : String)
  | out_of_fuel
deriving DecidableEq, Repr

/-- The final state carried by an `ok` outcome. -/
def RunResult.state? : RunResult → Option PipelineState
  | .ok s => some s
  | _ => none

/-- core/orchestrator.py `run(task, context, config)`: builds the initial
state, walks the graph from the planner entry point, sets the returned state's
status to Completed unconditionally, and re-raises any exception that escaped
the walk.  Returns the outcome together with the visited-node trace. -/
def run (cfg : Config) (task : String) (ora : Nat → Obs) (fuel : Nat) :
    RunResult × List (Node × PipelineState) :=
  let s0 := create_initial_state task cfg
  match walk cfg ora fuel 0 (.stage .planner) s0 with
  | (.finished s, tr) => (.ok { s with status := .completed }, tr)
  | (.raised msg _, tr) => (.exn msg, tr)
  | (.out_of_fuel _, tr) => (.out_of_fuel, tr)

/-- The retry branch condition of agents/validator.py lines 73-76, as a
predicate of the pre-state (whose `retry_count` and config the branch reads). -/
def validator_retry_fires (cfg : Config) (s : PipelineState) (v : Validation) :
    Bool :=
  !validator_passed cfg v && decide (s.retry_count < s.config.max_retries.getD 3)

/-- Summary of the `intermediate_results` writes performed by one successful
stage invocation, stated from the stages' documented contracts: each stage owns
one key, and the validator additionally sets `needs_retry` when its retry
branch fires. -/
def success_write (cfg : Config) (k : AgentType) (s : PipelineState) (o : Obs) :
    IntermediateResults :=
  let ir := s.intermediate_results
  match k with
  | .planner => { ir with execution_plan := some o.plan }
  | .researcher => { ir with research_findings := some ⟨o.key_points⟩ }
  | .analyzer => { ir with analysis := some ⟨o.insights⟩ }
  | .synthesizer =>
      { ir with synthesis := some ⟨o.actionable_items, o.next_steps⟩ }
  | .validator =>
      let v := structure_validation o.found_scores o.suggestions
      { ir with validation := some v
                needs_retry :=
                  if validator_retry_fires cfg s v then true
                  else ir.needs_retry }
  | .executor =>
      let n := (identify_actions (logExecutionStart s .executor)).length
      { ir with execution := some ⟨false, n⟩ }
  | .reviewer =>
      let q := o.review_quality
      { ir with review := some ⟨q, if (7:ℚ)/10 ≤ q then true else false⟩ }

/-- Sample oracle record: collaborator succeeds, nothing raises, all parsed
payloads empty, plan is the parser's fallback sequence. -/
def obs0 : Obs :=
  { monitor_start_throws := false
    monitor_completion_throws := false
    defect := false
    defect_msg := ""
    llm_throws := false
    llm_err := ""
    plan := ⟨["researcher", "analyzer", "synthesizer", "validator"]⟩
    key_points := []
    insights := []
    actionable_items := []
    next_steps := []
    found_scores := []
    suggestions := []
    review_quality := 0 }

/-- Sample configuration: everything defaulted. -/
def cfg0 : Config := ⟨none, none, none, none⟩

/-- Sample configuration with `agents.executor.enabled = false`. -/
def cfgExecOff : Config := ⟨none, none, some false, none⟩

/-- Sample configuration with `pipeline.max_retries = 1` and no top-level
`max_retries` key. -/
def cfgPipeOne : Config := ⟨none, some 1, none, none⟩

/-- Oracle stream: every visit succeeds. -/
def oraOk : Nat → Obs := fun _ => obs0

/-- Oracle stream: every stage visit suffers a defect escaping its handling. -/
def oraDefect : Nat → Obs :=
  fun _ => { obs0 with defect := true, defect_msg := "defect" }

/-- Oracle stream: every `record_agent_start` call raises. -/
def oraMon : Nat → Obs := fun _ => { obs0 with monitor_start_throws := true }

/-- Sample pre-state for standalone stage invocations. -/
def sPre : PipelineState := create_initial_state "t" cfg0

/-- Sample oracle record whose validation response parses to 0.5 on every
criterion. -/
def obsHalf : Obs :=
  { obs0 with found_scores := criteriaList.map (fun c => (c, 1/2)) }

/-- Sample oracle record whose collaborator call raises. -/
def obsThrow : Obs := { obs0 with llm_throws := true, llm_err := "boom" }

/-- Oracle stream: every stage visit's language-model call raises. -/
def oraBoom : Nat → Obs := fun _ => obsThrow

/-- Sample passed validation record. -/
def vEx : Validation :=
  { overall_score := 9/10
    criteria_scores := []
    suggestions := []
    passed := true }

/-- Sample state at the router after a passed validation with one actionable
item recorded by the synthesizer. -/
def sRouteEx : PipelineState :=
  { sPre with intermediate_results :=
      { IntermediateResults.empty with
          validation := some vEx
          synthesis := some ⟨["do X"], []⟩ } }

/-- Preservation of the fields the router and the run verdict depend on. -/
def PreservesRouting (s s' : PipelineState) : Prop :=
  s'.retry_count = s.retry_count ∧
  s'.intermediate_results.needs_retry = s.intermediate_results.needs_retry ∧
  s'.intermediate_results.synthesis = s.intermediate_results.synthesis ∧
  s'.final_result = s.final_result

theorem update_agent_state_fields (s : PipelineState) (k : AgentType)
    (st : AgentStatus) (out : Option StageOutput) (err : Option String) :
    (update_agent_state s k st out err).intermediate_results
        = s.intermediate_results
  ∧ (update_agent_state s k st out err).retry_count = s.retry_count
  ∧ (update_agent_state s k st out err).final_result = s.final_result
  ∧ (update_agent_state s k st out err).status = s.status
  ∧ (update_agent_state s k st out err).messages = s.messages
  ∧ (update_agent_state s k st out err).errors = s.errors := by
  exact ⟨rfl, rfl, rfl, rfl, rfl, rfl⟩

@[simp] theorem update_agent_state_ir (s : PipelineState) (k : AgentType)
    (st : AgentStatus) (out : Option StageOutput) (err : Option String) :
    (update_agent_state s k st out err).intermediate_results
      = s.intermediate_results := rfl

@[simp] theorem update_agent_state_retry (s : PipelineState) (k : AgentType)
    (st : AgentStatus) (out : Option StageOutput) (err : Option String) :
    (update_agent_state s k st out err).retry_count = s.retry_count := rfl

@[simp] theorem update_agent_state_final (s : PipelineState) (k : AgentType)
    (st : AgentStatus) (out : Option StageOutput) (err : Option String) :
    (update_agent_state s k st out err).final_result = s.final_result := rfl

@[simp] theorem update_agent_state_status (s : PipelineState) (k : AgentType)
    (st : AgentStatus) (out : Option StageOutput) (err : Option String) :
    (update_agent_state s k st out err).status = s.status := rfl

@[simp] theorem update_agent_state_messages (s : PipelineState) (k : AgentType)
    (st : AgentStatus) (out : Option StageOutput) (err : Option String) :
    (update_agent_state s k st out err).messages = s.messages := rfl

@[simp] theorem update_agent_state_errors (s : PipelineState) (k : AgentType)
    (st : AgentStatus) (out : Option StageOutput) (err : Option String) :
    (update_agent_state s k st out err).errors = s.errors := rfl

@[simp] theorem logExecutionStart_ir (s : PipelineState) (k : AgentType) :
    (logExecutionStart s k).intermediate_results = s.intermediate_results := rfl

@[simp] theorem logExecutionStart_retry (s : PipelineState) (k : AgentType) :
    (logExecutionStart s k).retry_count = s.retry_count := rfl

@[simp] theorem logExecutionStart_final (s : PipelineState) (k : AgentType) :
    (logExecutionStart s k).final_result = s.final_result := rfl

@[simp] theorem logExecutionStart_status (s : PipelineState) (k : AgentType) :
    (logExecutionStart s k).status = s.status := rfl

@[simp] theorem logExecutionStart_messages (s : PipelineState) (k : AgentType) :
    (logExecutionStart s k).messages = s.messages := rfl

@[simp] theorem logExecutionStart_errors (s : PipelineState) (k : AgentType) :
    (logExecutionStart s k).errors = s.errors := rfl

@[simp] theorem logExecutionStart_config (s : PipelineState) (k : AgentType) :
    (logExecutionStart s k).config = s.config := rfl

@[simp] theorem update_agent_state_config (s : PipelineState) (k : AgentType)
    (st : AgentStatus) (out : Option StageOutput) (err : Option String) :
    (update_agent_state s k st out err).config = s.config := rfl

@[simp] theorem addMessage_config (s : PipelineState) (k : AgentType)
    (c : String) :
    (addMessage s k c).config = s.config := rfl

@[simp] theorem appendError_config (s : PipelineState) (k : AgentType)
    (m : String) :
    (appendError s k m).config = s.config := rfl

@[simp] theorem logExecutionEnd_config (s : PipelineState) (k : AgentType)
    (b : Bool) (err : Option String) :
    (logExecutionEnd s k b err).config = s.config := rfl

@[simp] theorem logExecutionEnd_ir (s : PipelineState) (k : AgentType)
    (b : Bool) (err : Option String) :
    (logExecutionEnd s k b err).intermediate_results
      = s.intermediate_results := rfl

@[simp] theorem logExecutionEnd_retry (s : PipelineState) (k : AgentType)
    (b : Bool) (err : Option String) :
    (logExecutionEnd s k b err).retry_count = s.retry_count := rfl

@[simp] theorem logExecutionEnd_final (s : PipelineState) (k : AgentType)
    (b : Bool) (err : Option String) :
    (logExecutionEnd s k b err).final_result = s.final_result := rfl

@[simp] theorem logExecutionEnd_status (s : PipelineState) (k : AgentType)
    (b : Bool) (err : Option String) :
    (logExecutionEnd s k b err).status = s.status := rfl

@[simp] theorem logExecutionEnd_messages (s : PipelineState) (k : AgentType)
    (b : Bool) (err : Option String) :
    (logExecutionEnd s k b err).messages = s.messages := rfl

@[simp] theorem logExecutionEnd_errors (s : PipelineState) (k : AgentType)
    (b : Bool) (err : Option String) :
    (logExecutionEnd s k b err).errors = s.errors := rfl

@[simp] theorem appendError_ir (s : PipelineState) (k : AgentType) (m : String) :
    (appendError s k m).intermediate_results = s.intermediate_results := rfl

@[simp] theorem appendError_retry (s : PipelineState) (k : AgentType)
    (m : String) :
    (appendError s k m).retry_count = s.retry_count := rfl

@[simp] theorem appendError_final (s : PipelineState) (k : AgentType)
    (m : String) :
    (appendError s k m).final_result = s.final_result := rfl

@[simp] theorem appendError_status (s : PipelineState) (k : AgentType)
    (m : String) :
    (appendError s k m).status = s.status := rfl

@[simp] theorem appendError_messages (s : PipelineState) (k : AgentType)
    (m : String) :
    (appendError s k m).messages = s.messages := rfl

@[simp] theorem appendError_errors (s : PipelineState) (k : AgentType)
    (m : String) :
    (appendError s k m).errors = s.errors ++ [⟨k.value, m⟩] := rfl

@[simp] theorem addMessage_ir (s : PipelineState) (k : AgentType) (c : String) :
    (addMessage s k c).intermediate_results = s.intermediate_results := rfl

@[simp] theorem addMessage_retry (s : PipelineState) (k : AgentType)
    (c : String) :
    (addMessage s k c).retry_count = s.retry_count := rfl

@[simp] theorem addMessage_final (s : PipelineState) (k : AgentType)
    (c : String) :
    (addMessage s k c).final_result = s.final_result := rfl

@[simp] theorem addMessage_status (s : PipelineState) (k : AgentType)
    (c : String) :
    (addMessage s k c).status = s.status := rfl

@[simp] theorem addMessage_messages (s : PipelineState) (k : AgentType)
    (c : String) :
    (addMessage s k c).messages
      = s.messages ++ [⟨"agent", c, some k.value⟩] := rfl

@[simp] theorem addMessage_errors (s : PipelineState) (k : AgentType)
    (c : String) :
    (addMessage s k c).errors = s.errors := rfl

theorem planner_execute_preserves (s : PipelineState) (o : Obs) :
    PreservesRouting s (planner_execute s o) := by
  cases h : o.llm_throws <;>
    simp [PreservesRouting, planner_execute, h]

@[simp] theorem wrapperFinish_ir (cfg : Config) (k : AgentType)
    (s : PipelineState) (o : Obs) :
    (wrapperFinish cfg k s o).intermediate_results
      = (stage_execute cfg k s o).intermediate_results := rfl

@[simp] theorem wrapperFinish_retry (cfg : Config) (k : AgentType)
    (s : PipelineState) (o : Obs) :
    (wrapperFinish cfg k s o).retry_count
      = (stage_execute cfg k s o).retry_count := rfl

@[simp] theorem wrapperFinish_final (cfg : Config) (k : AgentType)
    (s : PipelineState) (o : Obs) :
    (wrapperFinish cfg k s o).final_result
      = (stage_execute cfg k s o).final_result := rfl

@[simp] theorem wrapperFinish_status (cfg : Config) (k : AgentType)
    (s : PipelineState) (o : Obs) :
    (wrapperFinish cfg k s o).status = (stage_execute cfg k s o).status := rfl

@[simp] theorem wrapperFinish_messages (cfg : Config) (k : AgentType)
    (s : PipelineState) (o : Obs) :
    (wrapperFinish cfg k s o).messages
      = (stage_execute cfg k s o).messages := rfl

@[simp] theorem wrapperFinish_errors (cfg : Config) (k : AgentType)
    (s : PipelineState) (o : Obs) :
    (wrapperFinish cfg k s o).errors = (stage_execute cfg k s o).errors := rfl

theorem agent_node_planner_ok (cfg : Config) (s : PipelineState) (o : Obs)
    (s' : PipelineState) (h : agent_node cfg .planner s o = .ok s') :
    PreservesRouting s s' := by
  have hp := planner_execute_preserves s o
  obtain ⟨h1, h2, h3, h4⟩ := hp
  unfold agent_node at h
  split at h
  · exact absurd h (by simp)
  · split at h
    · rw [NodeResult.ok.injEq] at h
      subst h
      exact ⟨rfl, rfl, rfl, rfl⟩
    · split at h <;>
      · rw [NodeResult.ok.injEq] at h
        subst h
        exact ⟨h1, h2, h3, h4⟩

theorem route_end_of_clean (cfg : Config) (s : PipelineState)
    (h1 : s.intermediate_results.needs_retry = false)
    (h2 : s.intermediate_results.synthesis = none) :
    route_after_validation cfg s = "end" := by
  unfold route_after_validation
  simp [h1, h2]

@[simp] theorem route_target_end : route_target "end" = Node.terminal := by
  simp [route_target]

theorem run_master (cfg : Config) (task : String) (ora : Nat → Obs)
    (fuel : Nat) :
    (∀ p ∈ (run cfg task ora fuel).2,
        (p.1 = Node.stage AgentType.planner ∨ p.1 = Node.router)
      ∧ p.2.retry_count = 0
      ∧ p.2.intermediate_results.needs_retry = false
      ∧ p.2.intermediate_results.synthesis = none)
  ∧ (∀ s, (run cfg task ora fuel).1 = RunResult.ok s →
        s.retry_count = 0 ∧ s.status = AgentStatus.completed
      ∧ s.final_result = none)
  ∧ (3 ≤ fuel → (run cfg task ora fuel).1 ≠ RunResult.out_of_fuel) := by
  rcases fuel with _ | n
  · refine ⟨?_, ?_, ?_⟩
    · intro p hp
      simp [run, walk] at hp
    · intro s hs
      simp [run, walk] at hs
    · omega
  · cases hnode : agent_node cfg .planner (create_initial_state task cfg)
        (ora 0) with
    | raised msg sr =>
        refine ⟨?_, ?_, ?_⟩
        · intro p hp
          simp [run, walk, hnode] at hp
          subst hp
          exact ⟨Or.inl rfl, rfl, rfl, rfl⟩
        · intro s hs
          simp [run, walk, hnode] at hs
        · intro _ hcon
          simp [run, walk, hnode] at hcon
    | ok s1 =>
        obtain ⟨k1, k2, k3, k4⟩ :=
          agent_node_planner_ok cfg _ (ora 0) s1 hnode
        have hs1retry : s1.retry_count = 0 := k1
        have hs1nr : s1.intermediate_results.needs_retry = false := k2
        have hs1syn : s1.intermediate_results.synthesis = none := k3
        have hs1fin : s1.final_result = none := k4
        have hfacts : (Node.router = Node.stage AgentType.planner
              ∨ Node.router = Node.router)
            ∧ s1.retry_count = 0
            ∧ s1.intermediate_results.needs_retry = false
            ∧ s1.intermediate_results.synthesis = none :=
          ⟨Or.inr rfl, hs1retry, hs1nr, hs1syn⟩
        have hroute := route_end_of_clean cfg s1 hs1nr hs1syn
        rcases n with _ | m
        · refine ⟨?_, ?_, ?_⟩
          · intro p hp
            simp [run, walk, hnode] at hp
            subst hp
            exact ⟨Or.inl rfl, rfl, rfl, rfl⟩
          · intro s hs
            simp [run, walk, hnode] at hs
          · omega
        · rcases m with _ | j
          · refine ⟨?_, ?_, ?_⟩
            · intro p hp
              simp [run, walk, hnode, hroute] at hp
              rcases hp with hp | hp
              · subst hp
                exact ⟨Or.inl rfl, rfl, rfl, rfl⟩
              · subst hp
                exact hfacts
            · intro s hs
              simp [run, walk, hnode, hroute] at hs
            · omega
          · refine ⟨?_, ?_, ?_⟩
            · intro p hp
              simp [run, walk, hnode, hroute] at hp
              rcases hp with hp | hp
              · subst hp
                exact ⟨Or.inl rfl, rfl, rfl, rfl⟩
              · subst hp
                exact hfacts
            · intro s hs
              simp [run, walk, hnode, hroute] at hs
              subst hs
              exact ⟨hs1retry, rfl, hs1fin⟩
            · intro _ hcon
              simp [run, walk, hnode, hroute] at hcon

/-- C1: every run of `run(task, context, config)` terminates: the walk halts
after finitely many node visits (three suffice) and in particular the
researcher node — hence the researcher-validator back-edge — is never reached:
the router can only return "researcher" when `needs_retry` is set, which only
the validator does, and the validator is only reachable through that very
edge.  The never-cleared `needs_retry` flag therefore never fires on any
actual run. -/
theorem C1_run_terminates (cfg : Config) (task : String) (ora : Nat → Obs)
    (fuel : Nat) (h : 3 ≤ fuel) :
    (run cfg task ora fuel).1 ≠ RunResult.out_of_fuel
  ∧ ∀ p ∈ (run cfg task ora fuel).2,
      p.1 ≠ Node.stage AgentType.researcher := by
  obtain ⟨htr, _, hfuel⟩ := run_master cfg task ora fuel
  refine ⟨hfuel h, ?_⟩
  intro p hp
  rcases (htr p hp).1 with h1 | h1 <;> simp [h1]

theorem C1_witness :
    3 ≤ 10 ∧ (run cfg0 "task" oraOk 10).1 ≠ RunResult.out_of_fuel :=
  ⟨by norm_num, (C1_run_terminates cfg0 "task" oraOk 10 (by norm_num)).1⟩

/-- C3 counterexample: a defect-free run on the default configuration returns
a state with status Completed and `final_result` still null (the reviewer
never runs), refuting "final_result is non-null if and only if status is
Completed". -/
theorem C3_counterexample :
    ((run cfg0 "task" oraOk 10).1.state?.map PipelineState.status)
        = some AgentStatus.completed
  ∧ ((run cfg0 "task" oraOk 10).1.state?.map PipelineState.final_result)
        = some none := by
  exact ⟨rfl, rfl⟩

/-- C3 (amended): every state returned by `run()` has status Completed (set
unconditionally after the walk), hence a non-null `final_result` occurs only
with status Completed; the converse direction fails — `final_result` is null
in every run, because only the reviewer's success path sets it and the
reviewer is unreachable. -/
theorem C3_final_result_status (cfg : Config) (task : String)
    (ora : Nat → Obs) (fuel : Nat) (s : PipelineState)
    (h : (run cfg task ora fuel).1 = RunResult.ok s) :
    s.status = AgentStatus.completed
  ∧ (s.final_result ≠ none → s.status = AgentStatus.completed) := by
  obtain ⟨_, hok, _⟩ := run_master cfg task ora fuel
  exact ⟨(hok s h).2.1, fun _ => (hok s h).2.1⟩

theorem C3_witness :
    ((run cfg0 "task" oraOk 10).1.state?.map PipelineState.status)
      = some AgentStatus.completed := by
  cases hrun : (run cfg0 "task" oraOk 10).1 with
  | ok s =>
      simp [RunResult.state?,
        (C3_final_result_status cfg0 "task" oraOk 10 s hrun).1]
  | exn m =>
      have hsome : (run cfg0 "task" oraOk 10).1.state?.isSome = true := rfl
      rw [hrun] at hsome
      simp [RunResult.state?] at hsome
  | out_of_fuel =>
      have hsome : (run cfg0 "task" oraOk 10).1.state?.isSome = true := rfl
      rw [hrun] at hsome
      simp [RunResult.state?] at hsome

/-- C4: in every run, `retry_count` never exceeds the configured
`pipeline.max_retries` (default 3) — it is in fact identically 0, since the
validator is the only writer of `retry_count` and is unreachable — and the
router never returns "researcher" at any routing point of a run (a fortiori
not when `retry_count` equals the configured maximum). -/
theorem C4_retry_bound (cfg : Config) (task : String) (ora : Nat → Obs)
    (fuel : Nat) :
    (∀ p ∈ (run cfg task ora fuel).2,
        p.2.retry_count ≤ cfg.pipeline_max_retries.getD 3
      ∧ (p.1 = Node.router → route_after_validation cfg p.2 ≠ "researcher"))
  ∧ (∀ s, (run cfg task ora fuel).1 = RunResult.ok s →
      s.retry_count ≤ cfg.pipeline_max_retries.getD 3) := by
  obtain ⟨htr, hok, _⟩ := run_master cfg task ora fuel
  constructor
  · intro p hp
    obtain ⟨_, hr, hnr, hsy⟩ := htr p hp
    refine ⟨by rw [hr]; exact Nat.zero_le _, ?_⟩
    intro _
    rw [route_end_of_clean cfg p.2 hnr hsy]
    simp
  · intro s hs
    rw [(hok s hs).1]
    exact Nat.zero_le _

theorem C4_witness :
    ((run cfgPipeOne "task" oraOk 10).2.all
      (fun p => decide
        (p.2.retry_count ≤ cfgPipeOne.pipeline_max_retries.getD 3))) = true := by
  have h := (C4_retry_bound cfgPipeOne "task" oraOk 10).1
  rw [List.all_eq_true]
  intro p hp
  exact decide_eq_true (h p hp).1

/-- C5: a run configured with `agents.executor.enabled = false` never visits
the executor or reviewer node and every router decision is "end".  This holds
for every configuration — the flag is never read by the code — because the
executor tail is unreachable: the router reaches "executor" only given a
non-empty synthesis, and the synthesizer never runs. -/
theorem C5_executor_disabled (cfg : Config) (task : String) (ora : Nat → Obs)
    (fuel : Nat) (h : cfg.agents_executor_enabled = some false) :
    ∀ p ∈ (run cfg task ora fuel).2,
      p.1 ≠ Node.stage AgentType.executor
    ∧ p.1 ≠ Node.stage AgentType.reviewer
    ∧ (p.1 = Node.router → route_after_validation cfg p.2 = "end") := by
  obtain ⟨htr, _, _⟩ := run_master cfg task ora fuel
  intro p hp
  obtain ⟨hn, _, hnr, hsy⟩ := htr p hp
  refine ⟨?_, ?_, ?_⟩
  · rcases hn with h1 | h1 <;> simp [h1]
  · rcases hn with h1 | h1 <;> simp [h1]
  · intro _
    exact route_end_of_clean cfg p.2 hnr hsy

theorem C5_witness :
    cfgExecOff.agents_executor_enabled = some false
  ∧ (((run cfgExecOff "task" oraOk 10).2.map Prod.fst).all
      (fun n => decide (n ≠ Node.stage AgentType.executor
        ∧ n ≠ Node.stage AgentType.reviewer))) = true := by
  refine ⟨rfl, ?_⟩
  have h := C5_executor_disabled cfgExecOff "task" oraOk 10 rfl
  rw [List.all_eq_true]
  intro n hn
  rw [List.mem_map] at hn
  obtain ⟨p, hp, rfl⟩ := hn
  exact decide_eq_true ⟨(h p hp).1, (h p hp).2.1⟩

/-- C2 counterexample: a run whose planner suffers a defect escaping its own
handling still visits the router node afterwards and reaches END — the walk
does not halt.  The second conjunct pins the refutation down: the router node
is entered while the run status is already Failed, i.e. a further graph node
is visited after the wrapper's catch.  The wrapper did catch the defect and
append exactly one error entry, and `run()` finally returns the state with
its status overwritten to Completed. -/
theorem C2_counterexample :
    (run cfg0 "task" oraDefect 10).2.map Prod.fst
        = [Node.stage AgentType.planner, Node.router]
  ∧ (run cfg0 "task" oraDefect 10).2.map (fun p => p.2.status)
        = [AgentStatus.pending, AgentStatus.failed]
  ∧ ((run cfg0 "task" oraDefect 10).1.state?.map PipelineState.errors)
        = some [⟨"planner", "defect"⟩]
  ∧ ((run cfg0 "task" oraDefect 10).1.state?.map PipelineState.status)
        = some AgentStatus.completed := by
  exact ⟨rfl, rfl, rfl, rfl⟩

/-- C2 (amended): when a stage's execute raises an exception that escapes its
own internal handling, the node wrapper catches it, appends exactly one
`{agent, error}` entry carrying the exception's message, sets the run status
to Failed, and returns the state; the walk does not halt — the wrapper's
catch yields an `ok` node outcome, never a raised one, so the walk follows
the static edge and the successor node is still visited with that state (and
`run()` later overwrites the status to Completed, see the counterexample).
Nothing in the graph inspects `status`, so no mechanism exists by which the
Failed mark could stop the walk. -/
theorem C2_wrapper_catch (cfg : Config) (k : AgentType) (s : PipelineState)
    (ora : Nat → Obs) (i fuel : Nat)
    (hm : (ora i).monitor_start_throws = false)
    (hd : (ora i).defect = true) :
    agent_node cfg k s (ora i)
        = .ok { s with errors := s.errors ++ [⟨k.value, (ora i).defect_msg⟩]
                       status := .failed }
  ∧ walk cfg ora (fuel + 1) i (Node.stage k) s
        = ((walk cfg ora fuel (i + 1) (next_static k)
              { s with errors := s.errors ++ [⟨k.value, (ora i).defect_msg⟩]
                       status := .failed }).1,
           (Node.stage k, s) ::
             (walk cfg ora fuel (i + 1) (next_static k)
               { s with errors := s.errors ++ [⟨k.value, (ora i).defect_msg⟩]
                        status := .failed }).2) := by
  have hnode : agent_node cfg k s (ora i)
      = .ok { s with errors := s.errors ++ [⟨k.value, (ora i).defect_msg⟩]
                     status := .failed } := by
    unfold agent_node
    rw [if_neg (by simp [hm]), if_pos hd]
  refine ⟨hnode, ?_⟩
  simp [walk, hnode]

theorem C2_witness :
    agent_node cfg0 .planner sPre (oraDefect 0)
        = .ok { sPre with
            errors := sPre.errors ++ [⟨AgentType.planner.value, "defect"⟩]
            status := .failed }
  ∧ walk cfg0 oraDefect 6 0 (Node.stage .planner) sPre
        = ((walk cfg0 oraDefect 5 1 (next_static .planner)
              { sPre with
                  errors :=
                    sPre.errors ++ [⟨AgentType.planner.value, "defect"⟩]
                  status := .failed }).1,
           (Node.stage .planner, sPre) ::
             (walk cfg0 oraDefect 5 1 (next_static .planner)
               { sPre with
                   errors :=
                     sPre.errors ++ [⟨AgentType.planner.value, "defect"⟩]
                   status := .failed }).2) :=
  C2_wrapper_catch cfg0 .planner sPre oraDefect 0 5 rfl rfl

/-- C9 counterexample: the same defect-free run either returns a final state
(monitor healthy) or aborts with the re-raised exception when
`record_agent_start` raises at the planner visit: the monitor failure is not
swallowed and changes the run's outcome. -/
theorem C9_counterexample :
    (run cfg0 "task" oraMon 10).1 = RunResult.exn "monitor record_agent_start"
  ∧ (run cfg0 "task" oraOk 10).1.state?.isSome = true := by
  exact ⟨rfl, rfl⟩

/-- C9 (amended): an exception raised by `record_agent_start` propagates out
of the node wrapper — the call happens before the wrapper's `try` block — so
the graph walk aborts and `run()` re-raises: the run fails with an exception
instead of returning a state.  Monitor recording failures are not isolated
from the run outcome. -/
theorem C9_monitor_start_aborts (cfg : Config) (task : String)
    (ora : Nat → Obs) (fuel : Nat)
    (h1 : (ora 0).monitor_start_throws = true) (h2 : 1 ≤ fuel) :
    (run cfg task ora fuel).1 = RunResult.exn "monitor record_agent_start" := by
  obtain ⟨n, rfl⟩ : ∃ n, fuel = n + 1 := ⟨fuel - 1, by omega⟩
  have hnode : agent_node cfg .planner (create_initial_state task cfg) (ora 0)
      = .raised "monitor record_agent_start" (create_initial_state task cfg) := by
    unfold agent_node
    rw [if_pos h1]
  simp [run, walk, hnode]

theorem C9_witness :
    (oraMon 0).monitor_start_throws = true ∧ 1 ≤ 10
  ∧ (run cfg0 "task" oraMon 10).1
      = RunResult.exn "monitor record_agent_start" :=
  ⟨rfl, by norm_num, C9_monitor_start_aborts cfg0 "task" oraMon 10 rfl (by norm_num)⟩

/-- C6: whenever the retry rule does not fire, the router returns "executor"
exactly when the recorded validation passed or is absent (absence counts as
passed) and the synthesis has non-empty actionable items or next steps; in
every other such state it returns "end". -/
theorem C6_router_rule2 (cfg : Config) (s : PipelineState)
    (h : ¬ (s.intermediate_results.needs_retry = true
            ∧ s.retry_count < cfg.max_retries.getD 3)) :
    (route_after_validation cfg s = "executor"
      ↔ ((∀ v, s.intermediate_results.validation = some v → v.passed = true)
        ∧ ∃ sy, s.intermediate_results.synthesis = some sy
            ∧ (sy.actionable_items ≠ [] ∨ sy.next_steps ≠ [])))
  ∧ (route_after_validation cfg s = "executor"
      ∨ route_after_validation cfg s = "end") := by
  unfold route_after_validation
  rw [if_neg h]
  rcases hv : s.intermediate_results.validation with _ | v <;>
    rcases hs : s.intermediate_results.synthesis with _ | sy <;>
    simp only [hv, hs, Option.map_none', Option.map_some', Option.getD_none,
      Option.getD_some] <;>
    split <;>
    simp_all

theorem C6_witness :
    ¬ (sRouteEx.intermediate_results.needs_retry = true
        ∧ sRouteEx.retry_count < cfg0.max_retries.getD 3)
  ∧ route_after_validation cfg0 sRouteEx = "executor" := by
  have hpre : ¬ (sRouteEx.intermediate_results.needs_retry = true
      ∧ sRouteEx.retry_count < cfg0.max_retries.getD 3) := by
    intro hcon
    exact absurd hcon.1
      (by simp [sRouteEx, sPre, create_initial_state, IntermediateResults.empty])
  refine ⟨hpre, ?_⟩
  refine ((C6_router_rule2 cfg0 sRouteEx hpre).1).mpr ⟨?_, ?_⟩
  · intro v hv
    have hveq : some vEx = some v := hv
    rw [← Option.some.injEq vEx v |>.mp hveq]
    rfl
  · refine ⟨⟨["do X"], []⟩, ?_, Or.inl (by simp)⟩
    rfl

theorem lookupAgent_setAgent_self (m : List (AgentType × AgentStateRec))
    (k : AgentType) (r : AgentStateRec) :
    lookupAgent (setAgent m k r) k = some r := by
  induction m with
  | nil => simp [setAgent, lookupAgent]
  | cons hd tl ih =>
      obtain ⟨k', r'⟩ := hd
      by_cases hk : k' = k
      · subst hk
        simp [setAgent, lookupAgent]
      · simp [setAgent, lookupAgent, hk, ih]

theorem updated_entry_status (prev : Option AgentStateRec) (st : AgentStatus)
    (out : Option StageOutput) (err : Option String) :
    (updated_entry prev st out err).status = st := by
  cases prev <;> rfl

/-- The executor never consults the collaborator oracle: agents/executor.py
makes no stage-level language-model call — its collaborator calls happen per
action inside `_execute_actions` and per tool inside `_execute_query`, and
both catch their own failures there — so no "collaborator call throwing
inside the executor's own handler" invocation exists, and the C7 claim is
vacuous for the executor. -/
theorem executor_execute_ignores_obs (s : PipelineState) (o o' : Obs) :
    executor_execute s o = executor_execute s o' := rfl

/-- C7: a stage invocation whose language-model call throws inside the
stage's own handler is non-fatal: the stage catches it and does not re-raise;
exactly one error entry (stage name and the exception's message) is appended;
the run status field is untouched (in particular never set to Failed); the
stage's own recorded state becomes Failed; no message and no intermediate
result is written; and the walk proceeds to the next graph node — the node
outcome is `ok`, so the static edge to the successor is followed.  The six
stages that invoke the model are covered; the executor is excluded because it
makes no stage-level collaborator call (`executor_execute_ignores_obs`), so
the claim's hypothesis is unsatisfiable for it. -/
theorem C7_llm_failure_nonfatal (cfg : Config) (k : AgentType)
    (s : PipelineState) (ora : Nat → Obs) (i fuel : Nat)
    (hk : k ≠ AgentType.executor) (hl : (ora i).llm_throws = true)
    (hm1 : (ora i).monitor_start_throws = false)
    (hm2 : (ora i).monitor_completion_throws = false)
    (hd : (ora i).defect = false) :
    agent_node cfg k s (ora i) = .ok (wrapperFinish cfg k s (ora i))
  ∧ (stage_execute cfg k s (ora i)).errors
      = s.errors ++ [⟨k.value, (ora i).llm_err⟩]
  ∧ (stage_execute cfg k s (ora i)).status = s.status
  ∧ (lookupAgent (stage_execute cfg k s (ora i)).agent_states k).map
      AgentStateRec.status = some AgentStatus.failed
  ∧ (stage_execute cfg k s (ora i)).messages = s.messages
  ∧ (stage_execute cfg k s (ora i)).intermediate_results
      = s.intermediate_results
  ∧ walk cfg ora (fuel + 1) i (Node.stage k) s
      = ((walk cfg ora fuel (i + 1) (next_static k)
            (wrapperFinish cfg k s (ora i))).1,
        (Node.stage k, s) ::
          (walk cfg ora fuel (i + 1) (next_static k)
            (wrapperFinish cfg k s (ora i))).2) := by
  have hstage : stage_execute cfg k s (ora i)
      = logExecutionEnd
          (appendError (logExecutionStart s k) k (ora i).llm_err) k
          false (some (ora i).llm_err) := by
    cases k with
    | executor => exact absurd rfl hk
    | planner => simp [stage_execute, planner_execute, hl]
    | researcher => simp [stage_execute, researcher_execute, hl]
    | analyzer => simp [stage_execute, analyzer_execute, hl]
    | synthesizer => simp [stage_execute, synthesizer_execute, hl]
    | validator => simp [stage_execute, validator_execute, hl]
    | reviewer => simp [stage_execute, reviewer_execute, hl]
  have hnode : agent_node cfg k s (ora i)
      = .ok (wrapperFinish cfg k s (ora i)) := by
    unfold agent_node
    rw [if_neg (by simp [hm1]), if_neg (by simp [hd]),
      if_neg (by simp [hm2])]
  refine ⟨hnode, ?_, ?_, ?_, ?_, ?_, ?_⟩
  · rw [hstage]; simp
  · rw [hstage]; simp
  · rw [hstage]
    simp [logExecutionEnd, update_agent_state, lookupAgent_setAgent_self,
      updated_entry_status]
  · rw [hstage]; simp
  · rw [hstage]; simp
  · simp [walk, hnode]

theorem C7_witness :
    agent_node cfg0 .validator sPre (oraBoom 0)
        = .ok (wrapperFinish cfg0 .validator sPre (oraBoom 0))
  ∧ (stage_execute cfg0 .validator sPre (oraBoom 0)).status = sPre.status
  ∧ (stage_execute cfg0 .validator sPre (oraBoom 0)).errors
      = sPre.errors ++ [⟨AgentType.validator.value, "boom"⟩]
  ∧ (run cfg0 "task" oraBoom 10).2.map Prod.fst
      = [Node.stage AgentType.planner, Node.router]
  ∧ (run cfg0 "task" oraBoom 10).2.map (fun p => p.2.status)
      = [AgentStatus.pending, AgentStatus.pending]
  ∧ ((run cfg0 "task" oraBoom 10).1.state?.map PipelineState.errors)
      = some [⟨"planner", "boom"⟩]
  ∧ ((run cfg0 "task" oraBoom 10).1.state?.map PipelineState.status)
      = some AgentStatus.completed := by
  have h := C7_llm_failure_nonfatal cfg0 .validator sPre oraBoom 0 5
    (by decide) rfl rfl rfl rfl
  exact ⟨h.1, h.2.2.1, h.2.1, rfl, rfl, rfl, rfl⟩

/-- C8 counterexample: one validator invocation on a fresh state, with every
criterion parsed as 0.5 (overall 0.5 < 0.7, retry budget remaining), writes
two `intermediate_results` keys — `validation` and `needs_retry` — refuting
"every stage invocation writes to exactly one key". -/
theorem C8_counterexample :
    sPre.intermediate_results.validation = none
  ∧ sPre.intermediate_results.needs_retry = false
  ∧ ((validator_execute cfg0 sPre obsHalf).intermediate_results.validation).isSome
      = true
  ∧ (validator_execute cfg0 sPre obsHalf).intermediate_results.needs_retry
      = true := by
  have hvp : validator_passed cfg0
      (structure_validation obsHalf.found_scores obsHalf.suggestions) = false := by
    norm_num [validator_passed, cfg0, structure_validation,
      extract_criteria_scores, criteriaList, lookupScore, obsHalf, obs0,
      sumScores, min_def]
  have hlt : obsHalf.llm_throws = false := rfl
  have hr : sPre.retry_count < sPre.config.max_retries.getD 3 := by
    norm_num [sPre, create_initial_state, cfg0]
  refine ⟨rfl, rfl, ?_, ?_⟩
  · simp [validator_execute, hlt, apply_ite]
  · simp [validator_execute, hlt, hvp, hr, apply_ite]

/-- C8 (amended): every stage invocation that completes its success path
writes its own `intermediate_results` key and appends exactly one message —
except the validator, which writes `validation` and additionally sets
`needs_retry` when its retry branch fires (failed validation with retry
budget remaining); invocations that fail inside the stage write no key and no
message (see the C7 theorem), and the executor's no-action path writes its
key but appends no message. -/
theorem C8_stage_writes (cfg : Config) (k : AgentType) (s : PipelineState)
    (o : Obs) (hl : o.llm_throws = false)
    (ha : k = AgentType.executor →
      (identify_actions (logExecutionStart s .executor)).isEmpty = false) :
    (stage_execute cfg k s o).intermediate_results = success_write cfg k s o
  ∧ ∃ m, (stage_execute cfg k s o).messages = s.messages ++ [m] := by
  cases k with
  | planner =>
      refine ⟨?_, ⟨"agent", "Created execution plan",
          some AgentType.planner.value⟩, ?_⟩ <;>
        simp [stage_execute, planner_execute, success_write, hl]
  | researcher =>
      refine ⟨?_, ⟨"agent", "Research completed",
          some AgentType.researcher.value⟩, ?_⟩ <;>
        simp [stage_execute, researcher_execute, success_write, hl]
  | analyzer =>
      refine ⟨?_, ⟨"agent", "Analysis completed",
          some AgentType.analyzer.value⟩, ?_⟩ <;>
        simp [stage_execute, analyzer_execute, success_write, hl]
  | synthesizer =>
      refine ⟨?_, ⟨"agent", "Synthesis completed",
          some AgentType.synthesizer.value⟩, ?_⟩ <;>
        simp [stage_execute, synthesizer_execute, success_write, hl]
  | reviewer =>
      refine ⟨?_, ⟨"agent", "Review completed",
          some AgentType.reviewer.value⟩, ?_⟩ <;>
        simp [stage_execute, reviewer_execute, success_write, hl]
  | executor =>
      have hne := ha rfl
      refine ⟨?_, ⟨"agent", "Executed actions",
          some AgentType.executor.value⟩, ?_⟩ <;>
        simp [stage_execute, executor_execute, success_write, hne]
  | validator =>
      constructor
      · show (validator_execute cfg s o).intermediate_results
            = success_write cfg .validator s o
        unfold validator_execute
        rw [if_neg (show ¬(o.llm_throws = true) by simp [hl])]
        rfl
      · refine ⟨⟨"agent",
          if validator_passed cfg
              (structure_validation o.found_scores o.suggestions) then
            "Validation passed" else "Validation failed",
          some AgentType.validator.value⟩, ?_⟩
        show (validator_execute cfg s o).messages = _
        unfold validator_execute
        rw [if_neg (show ¬(o.llm_throws = true) by simp [hl])]
        rfl

theorem C8_witness :
    (stage_execute cfg0 .validator sPre obsHalf).intermediate_results
      = success_write cfg0 .validator sPre obsHalf :=
  (C8_stage_writes cfg0 .validator sPre obsHalf rfl
    (by intro h; exact absurd h (by decide))).1

/-- C10: when no criterion score can be parsed from the validation response
(the empty string included), every criterion defaults to 0.7, the overall
score is exactly 0.7, the stored `passed` flag is true (0.7 ≥ the hard-coded
0.7), and under the default `min_score` the execute-level check also passes:
`retry_count` and `needs_retry` are left untouched, so an unparseable
response never triggers a retry. -/
theorem C10_unparseable_passes (cfg : Config) (s : PipelineState) (o : Obs)
    (hmin : cfg.validator_min_score = none) (hl : o.llm_throws = false)
    (hnone : ∀ c, lookupScore o.found_scores c = none) :
    (validator_execute cfg s o).intermediate_results.validation
      = some (structure_validation o.found_scores o.suggestions)
  ∧ (structure_validation o.found_scores o.suggestions).overall_score = 7/10
  ∧ (structure_validation o.found_scores o.suggestions).passed = true
  ∧ (validator_execute cfg s o).retry_count = s.retry_count
  ∧ (validator_execute cfg s o).intermediate_results.needs_retry
      = s.intermediate_results.needs_retry := by
  have hcs : extract_criteria_scores o.found_scores
      = [("accuracy", 7/10), ("completeness", 7/10), ("coherence", 7/10),
         ("relevance", 7/10), ("quality", 7/10)] := by
    simp [extract_criteria_scores, criteriaList, hnone]
  have hover : (structure_validation o.found_scores o.suggestions).overall_score
      = 7/10 := by
    simp only [structure_validation]
    rw [hcs]
    norm_num [sumScores]
    simp
  have hpassed : (structure_validation o.found_scores o.suggestions).passed
      = true := by
    simp only [structure_validation]
    rw [hcs]
    norm_num [sumScores]
    simp
  have hvp : validator_passed cfg
      (structure_validation o.found_scores o.suggestions) = true := by
    rw [validator_passed, hmin, hover]
    norm_num
  refine ⟨?_, hover, hpassed, ?_, ?_⟩
  · simp [validator_execute, hl, apply_ite]
  · simp [validator_execute, hl, hvp, apply_ite]
  · simp [validator_execute, hl, hvp, apply_ite]

theorem C10_witness :
    cfg0.validator_min_score = none
  ∧ (structure_validation obs0.found_scores obs0.suggestions).overall_score
      = 7/10
  ∧ (structure_validation obs0.found_scores obs0.suggestions).passed = true
  ∧ (validator_execute cfg0 sPre obs0).intermediate_results.needs_retry
      = false := by
  have h := C10_unparseable_passes cfg0 sPre obs0 rfl rfl (fun c => rfl)
  refine ⟨rfl, h.2.1, h.2.2.1, ?_⟩
  rw [h.2.2.2.2]
  rfl

end AgenticAI
